import Mathlib

/-!
# Verification of the rclrs context-lifecycle and identifier-validation core

Shallow embedding of `src/rclrs/src/context.rs` and `src/rclrs/src/node.rs`
(ThijsRay/ros2_rust).  The native ROS middleware (rcl / rmw) is an external
collaborator; its validators and lifecycle calls are modelled from the spec
(§4.4, §6) and from the documented native result-code sets.  Strings are
modelled as Lean `String`s / `List Char`; a byte offset coincides with the
character index on the ASCII inputs that appear in the claims.
-/

namespace Ros2Rust

/-! ## Native result-code constants (values as exposed by the generated
`rcl_sys` bindings from the rmw / rcl headers) -/

def RMW_RET_OK : Nat := 0

def RMW_NODE_NAME_VALID : Nat := 0
def RMW_NODE_NAME_INVALID_IS_EMPTY_STRING : Nat := 1
def RMW_NODE_NAME_INVALID_CONTAINS_UNALLOWED_CHARACTERS : Nat := 2
def RMW_NODE_NAME_INVALID_STARTS_WITH_NUMBER : Nat := 3
def RMW_NODE_NAME_INVALID_TOO_LONG : Nat := 4

/-- Native-defined maximum node-name length (opaque constant per the spec). -/
def RMW_NODE_NAME_MAX_NAME_LENGTH : Nat := 255

def RMW_NAMESPACE_VALID : Nat := 0
def RMW_NAMESPACE_INVALID_IS_EMPTY_STRING : Nat := 1
def RMW_NAMESPACE_INVALID_NOT_ABSOLUTE : Nat := 2
def RMW_NAMESPACE_INVALID_ENDS_WITH_FORWARD_SLASH : Nat := 3
def RMW_NAMESPACE_INVALID_CONTAINS_UNALLOWED_CHARACTERS : Nat := 4
def RMW_NAMESPACE_INVALID_CONTAINS_REPEATED_FORWARD_SLASH : Nat := 5
def RMW_NAMESPACE_INVALID_NAME_TOKEN_STARTS_WITH_NUMBER : Nat := 6
def RMW_NAMESPACE_INVALID_TOO_LONG : Nat := 7

/-- Native-defined maximum namespace length (opaque constant per the spec). -/
def RMW_NAMESPACE_MAX_LENGTH : Nat := 255

def RCL_RET_OK : Nat := 0
def RCL_RET_ALREADY_SHUTDOWN : Nat := 102
def RCL_RET_INVALID_ROS_ARGS : Nat := 1003

/-! ## C strings

`CString::new` fails exactly when the input contains an embedded zero byte;
the `NulError` it returns carries the position of the first such byte. -/

/-- Index of the first NUL character of a list of characters, if any. -/
def firstNulIdx : Nat → List Char → Option Nat
  | _, [] => none
  | i, c :: rest => if c = Char.ofNat 0 then some i else firstNulIdx (i + 1) rest

/-- Model of `CString::new`: either the position of the first embedded zero
byte (the `NulError`), or the character content of the string. -/
def cstring_new (s : String) : Except Nat (List Char) :=
  match firstNulIdx 0 s.data with
  | some i => Except.error i
  | none => Except.ok s.data

/-! ## The native identifier validators (modelled from the spec) -/

/-- Allowed node-name characters: ASCII letters, digits, underscore. -/
def allowedNameChar (c : Char) : Bool :=
  (('a' ≤ c ∧ c ≤ 'z') ∨ ('A' ≤ c ∧ c ≤ 'Z') ∨ ('0' ≤ c ∧ c ≤ '9') ∨ c = '_' : Prop)

/-- ASCII digit. -/
def isAsciiDigit (c : Char) : Bool := ('0' ≤ c ∧ c ≤ '9' : Prop)

/-- Outcome of a native validation call: the call-status return value, the
validation result code, and the offset of the first offending byte. -/
structure RmwValidation where
  ret : Nat
  validation_result : Nat
  invalid_index : Nat
deriving DecidableEq

/-- First index holding a character that is not allowed in a node name. -/
def scanName : Nat → List Char → Option Nat
  | _, [] => none
  | i, c :: rest => if allowedNameChar c then scanName (i + 1) rest else some i

/-- Modelled from the spec: the native node-name validator
(`rmw_validate_node_name`, not part of this repository).  Rules preserved
exactly per §4.4: must not be empty; only ASCII letters, digits and
underscores; must not start with a digit; bounded length.  The call itself
always succeeds (`ret = RMW_RET_OK`) on a valid C string. -/
def rmw_validate_node_name (s : List Char) : RmwValidation :=
  if s = [] then ⟨RMW_RET_OK, RMW_NODE_NAME_INVALID_IS_EMPTY_STRING, 0⟩
  else
    match scanName 0 s with
    | some i => ⟨RMW_RET_OK, RMW_NODE_NAME_INVALID_CONTAINS_UNALLOWED_CHARACTERS, i⟩
    | none =>
      if (s.head?.elim false isAsciiDigit : Bool) then
        ⟨RMW_RET_OK, RMW_NODE_NAME_INVALID_STARTS_WITH_NUMBER, 0⟩
      else if RMW_NODE_NAME_MAX_NAME_LENGTH < s.length then
        ⟨RMW_RET_OK, RMW_NODE_NAME_INVALID_TOO_LONG, RMW_NODE_NAME_MAX_NAME_LENGTH - 1⟩
      else ⟨RMW_RET_OK, RMW_NODE_NAME_VALID, 0⟩

/-- Allowed namespace characters: the name characters plus the separator. -/
def allowedNsChar (c : Char) : Bool := allowedNameChar c ∨ (c = '/' : Prop)

/-- Left-to-right scan of a namespace body (everything after the leading
slash): reports the first repeated slash, digit-led segment, or unallowed
character, with its index. -/
def scanNs : Char → Nat → List Char → Option (Nat × Nat)
  | _, _, [] => none
  | prev, i, c :: rest =>
    if c = '/' ∧ prev = '/' then
      some (RMW_NAMESPACE_INVALID_CONTAINS_REPEATED_FORWARD_SLASH, i)
    else if prev = '/' ∧ (isAsciiDigit c : Bool) then
      some (RMW_NAMESPACE_INVALID_NAME_TOKEN_STARTS_WITH_NUMBER, i)
    else if allowedNsChar c then scanNs c (i + 1) rest
    else some (RMW_NAMESPACE_INVALID_CONTAINS_UNALLOWED_CHARACTERS, i)

/-- Modelled from the spec: the native namespace validator
(`rmw_validate_namespace`, not part of this repository).  Structural rules
per §4.4: must start with `/` (the root `/` is valid); each `/`-delimited
segment follows the name character rules and must not start with a digit;
no two consecutive `/`; must not end with `/` unless it is exactly the
root; bounded length; the empty string is reported as the empty-string
code (§4.4 result mapping, §8). -/
def rmw_validate_namespace (s : List Char) : RmwValidation :=
  if s = [] then ⟨RMW_RET_OK, RMW_NAMESPACE_INVALID_IS_EMPTY_STRING, 0⟩
  else if s.head? ≠ some '/' then ⟨RMW_RET_OK, RMW_NAMESPACE_INVALID_NOT_ABSOLUTE, 0⟩
  else if s = ['/'] then ⟨RMW_RET_OK, RMW_NAMESPACE_VALID, 0⟩
  else
    match scanNs '/' 1 s.tail with
    | some (code, i) => ⟨RMW_RET_OK, code, i⟩
    | none =>
      if RMW_NAMESPACE_MAX_LENGTH < s.length then
        ⟨RMW_RET_OK, RMW_NAMESPACE_INVALID_TOO_LONG, RMW_NAMESPACE_MAX_LENGTH - 1⟩
      else if s.getLast? = some '/' then
        ⟨RMW_RET_OK, RMW_NAMESPACE_INVALID_ENDS_WITH_FORWARD_SLASH, s.length - 1⟩
      else ⟨RMW_RET_OK, RMW_NAMESPACE_VALID, 0⟩

/-! ## Rust-side outcome type

A Rust function that may `panic!` either produces its `Result` or diverges;
`fatal` records divergence (the panic message), `ok`/`err` the two `Result`
constructors. -/

inductive Outcome (E : Type) (A : Type) where
  | ok (a : A)
  | err (e : E)
  | fatal (msg : String)
deriving DecidableEq

/-! ## node.rs: error taxonomy and the two validators -/

/-- `NodeNameValidationError` from `node.rs`; `InvalidCString` carries the
`NulError`, i.e. the position of the embedded zero byte. -/
inductive NodeNameValidationError where
  | InvalidCString (nul_position : Nat)
  | EmptyString
  | ContainsUnallowedCharacters (pos : Nat)
  | StartsWithNumber
  | IsTooLong
deriving DecidableEq

/-- `NodeNamespaceValidationError` from `node.rs`. -/
inductive NodeNamespaceValidationError where
  | InvalidCString (nul_position : Nat)
  | EmptyString
  | ContainsUnallowedCharacters (pos : Nat)
  | StartsWithNumber
  | IsTooLong
  | NotAbsolute
  | EndsWithForwardSlash
  | ContainsRepeatedForwardSlash (pos : Nat)
deriving DecidableEq

/-- The `match validation_result as u32` arm of `Node::validate_node_name`:
maps the native result code (and offending offset) to the typed outcome. -/
def mapNodeNameResult (validation_result : Nat) (invalid_index : Nat) :
    Outcome NodeNameValidationError Unit :=
  if validation_result = RMW_NODE_NAME_VALID then Outcome.ok ()
  else if validation_result = RMW_NODE_NAME_INVALID_IS_EMPTY_STRING then
    Outcome.err NodeNameValidationError.EmptyString
  else if validation_result = RMW_NODE_NAME_INVALID_CONTAINS_UNALLOWED_CHARACTERS then
    Outcome.err (NodeNameValidationError.ContainsUnallowedCharacters invalid_index)
  else if validation_result = RMW_NODE_NAME_INVALID_STARTS_WITH_NUMBER then
    Outcome.err NodeNameValidationError.StartsWithNumber
  else if validation_result = RMW_NODE_NAME_INVALID_TOO_LONG then
    Outcome.err NodeNameValidationError.IsTooLong
  else Outcome.fatal "Unknown error in validating node name"

/-- `Node::validate_node_name` from `node.rs`: convert to a C string
(failing with `InvalidCString` on an embedded zero byte), call the native
validator, panic if the call itself failed, then map the result code. -/
def validate_node_name (s : String) : Outcome NodeNameValidationError Unit :=
  match cstring_new s with
  | Except.error i => Outcome.err (NodeNameValidationError.InvalidCString i)
  | Except.ok cs =>
    let r := rmw_validate_node_name cs
    if r.ret ≠ RMW_RET_OK then
      Outcome.fatal "The rmw_validate_node_name function has not been called properly. This should never happen."
    else mapNodeNameResult r.validation_result r.invalid_index

/-- The `match validation_result as u32` arm of
`Node::validate_node_namespace`. -/
def mapNamespaceResult (validation_result : Nat) (invalid_index : Nat) :
    Outcome NodeNamespaceValidationError Unit :=
  if validation_result = RMW_NAMESPACE_VALID then Outcome.ok ()
  else if validation_result = RMW_NAMESPACE_INVALID_IS_EMPTY_STRING then
    Outcome.err NodeNamespaceValidationError.EmptyString
  else if validation_result = RMW_NAMESPACE_INVALID_CONTAINS_UNALLOWED_CHARACTERS then
    Outcome.err (NodeNamespaceValidationError.ContainsUnallowedCharacters invalid_index)
  else if validation_result = RMW_NAMESPACE_INVALID_NAME_TOKEN_STARTS_WITH_NUMBER then
    Outcome.err NodeNamespaceValidationError.StartsWithNumber
  else if validation_result = RMW_NAMESPACE_INVALID_TOO_LONG then
    Outcome.err NodeNamespaceValidationError.IsTooLong
  else if validation_result = RMW_NAMESPACE_INVALID_NOT_ABSOLUTE then
    Outcome.err NodeNamespaceValidationError.NotAbsolute
  else if validation_result = RMW_NAMESPACE_INVALID_ENDS_WITH_FORWARD_SLASH then
    Outcome.err NodeNamespaceValidationError.EndsWithForwardSlash
  else if validation_result = RMW_NAMESPACE_INVALID_CONTAINS_REPEATED_FORWARD_SLASH then
    Outcome.err (NodeNamespaceValidationError.ContainsRepeatedForwardSlash invalid_index)
  else Outcome.fatal "Unknown error in validating node namespace"

/-- `Node::validate_node_namespace` from `node.rs`. -/
def validate_node_namespace (s : String) : Outcome NodeNamespaceValidationError Unit :=
  match cstring_new s with
  | Except.error i => Outcome.err (NodeNamespaceValidationError.InvalidCString i)
  | Except.ok cs =>
    let r := rmw_validate_namespace cs
    if r.ret ≠ RMW_RET_OK then
      Outcome.fatal "The rmw_validate_namespace function has not been called properly. This should never happen."
    else mapNamespaceResult r.validation_result r.invalid_index

/-! ## context.rs: the runtime context lifecycle

The foreign `rcl_context_t` is opaque; what the spec tracks is its phase
(zero-initialized → live → shut down), implicit in which native calls have
been issued.  The native `rcl_init` call's return code is an input of the
model (the native layer is an external collaborator): `Ros.init` takes the
native behaviour as a function from the forwarded argument vector to the
return code. -/

/-- Phase of a foreign `rcl_context_t`, per spec §3 / §4.3. -/
inductive CtxPhase where
  | zeroInitialized
  | live
  | shutDown
deriving DecidableEq

/-- `RosInitError` from `context.rs`: the only recoverable init error. -/
inductive RosInitError where
  | InvalidROSArguments
deriving DecidableEq

/-- `Ros` from `context.rs`: owns the guarded context; the model keeps the
context's phase. -/
structure Ros where
  context : CtxPhase
deriving DecidableEq

/-- Argument gathering of `Ros::init`:
`env::args().filter_map(|arg| CString::new(arg).ok())` — each process
argument is converted to a C string, and the ones that cannot be
represented are silently dropped. -/
def gatherArgs (args : List String) : List (List Char) :=
  args.filterMap (fun arg => (cstring_new arg).toOption)

/-- `Ros::init` from `context.rs`.  `rcl_init` is the native init call,
given abstractly as a map from the forwarded C-string argument vector to
its return code (spec §6: `native_init(...) -> status ∈ {OK, INVALID_ARGS,
other}`); on `RCL_RET_OK` the zero-initialized context has become live. -/
def Ros.init (args : List String) (rcl_init : List (List Char) → Nat) :
    Outcome RosInitError Ros :=
  let c_args := gatherArgs args
  let return_value := rcl_init c_args
  if return_value = RCL_RET_OK then Outcome.ok ⟨CtxPhase.live⟩
  else if return_value = RCL_RET_INVALID_ROS_ARGS then
    Outcome.err RosInitError.InvalidROSArguments
  else Outcome.fatal "Unspecified error occurred while initialzing ROS"

/-- Modelled from the spec: native `rcl_shutdown` (not part of this
repository).  Per the safety comment in `context.rs` and spec §4.3, it
succeeds on a context initialized with `rcl_init` and otherwise fails with
`RCL_RET_ALREADY_SHUTDOWN`; a successful shutdown moves the context to the
shut-down phase. -/
def rcl_shutdown (p : CtxPhase) : Nat × CtxPhase :=
  match p with
  | CtxPhase.live => (RCL_RET_OK, CtxPhase.shutDown)
  | p => (RCL_RET_ALREADY_SHUTDOWN, p)

/-- `impl Drop for Ros` from `context.rs`: issues one native shutdown on
the guarded context and asserts the return value is `RCL_RET_OK`.  `some`
holds the context phase after the (passed) assertion; `none` is the
assertion failure (panic). -/
def Ros.drop (r : Ros) : Option CtxPhase :=
  let result := rcl_shutdown r.context
  if result.1 = RCL_RET_OK then some result.2 else none

/-! ## node.rs: NodeBuilder -/

/-- The part of the foreign `rcl_node_options_t` this layer touches. -/
structure RclNodeOptions where
  enable_rosout : Bool
deriving DecidableEq

/-- Modelled from the spec: native `rcl_node_get_default_options` (not part
of this repository); the rosout flag is enabled by default (§4.5 and the
builder's doc comment). -/
def rcl_node_get_default_options : RclNodeOptions := ⟨true⟩

/-- `NodeBuilder` from `node.rs` (the Rust field `namespace` is a Lean
keyword, hence `namespace_`). -/
structure NodeBuilder where
  name : Option String
  namespace_ : String
  options : RclNodeOptions
deriving DecidableEq

/-- `impl Default for NodeBuilder`: no name, empty namespace (stored
without validation), default native node options. -/
def NodeBuilder.default : NodeBuilder :=
  ⟨none, "", rcl_node_get_default_options⟩

/-- `NodeBuilder::name`: validates through `Node::validate_node_name` and
panics (`expect`) unless validation succeeds; `none` is the panic. -/
def NodeBuilder.with_name (b : NodeBuilder) (n : String) : Option NodeBuilder :=
  match validate_node_name n with
  | Outcome.ok _ => some { b with name := some n }
  | _ => none

/-- `NodeBuilder::namespace`: validates through
`Node::validate_node_namespace` and panics (`expect`) unless validation
succeeds; `none` is the panic. -/
def NodeBuilder.with_namespace (b : NodeBuilder) (ns : String) : Option NodeBuilder :=
  match validate_node_namespace ns with
  | Outcome.ok _ => some { b with namespace_ := ns }
  | _ => none

/-- `NodeBuilder::enable_rosout`: sets the flag, no validation. -/
def NodeBuilder.enable_rosout (b : NodeBuilder) (enable : Bool) : NodeBuilder :=
  { b with options := { b.options with enable_rosout := enable } }

/-! ## Helper lemmas -/

/-- The modelled native name-validation call itself always succeeds. -/
theorem rmw_validate_node_name_ret_ok (cs : List Char) :
    (rmw_validate_node_name cs).ret = RMW_RET_OK := by
  unfold rmw_validate_node_name
  split
  · rfl
  · split
    · rfl
    · split_ifs <;> rfl

/-- The modelled native namespace-validation call itself always succeeds. -/
theorem rmw_validate_namespace_ret_ok (cs : List Char) :
    (rmw_validate_namespace cs).ret = RMW_RET_OK := by
  unfold rmw_validate_namespace
  repeat' split
  all_goals rfl

end Ros2Rust

namespace Ros2Rust

/-! ## Claims about the validators on concrete inputs -/

/-- C3 counterexample: the namespace validator does not accept the empty
string — contrary to the claim that `""` (the root) is valid. -/
theorem namespace_empty_not_accepted :
    validate_node_namespace "" ≠ Outcome.ok () := by decide

/-- C3 (amended): the namespace validator rejects the empty string with
`EmptyString`; the root namespace is `"/"`, not `""`. -/
theorem namespace_empty_rejected :
    validate_node_namespace "" = Outcome.err NodeNamespaceValidationError.EmptyString ∧
    validate_node_namespace "/" = Outcome.ok () := by decide

/-- C6: the namespace validator's outcomes on the seven reference inputs,
covering the three namespace-specific error variants with byte offsets. -/
theorem namespace_validator_reference_cases :
    validate_node_namespace "/namespace" = Outcome.ok () ∧
    validate_node_namespace "" = Outcome.err NodeNamespaceValidationError.EmptyString ∧
    validate_node_namespace "just_a_namespace" =
      Outcome.err NodeNamespaceValidationError.NotAbsolute ∧
    validate_node_namespace "/just_a_namespace/" =
      Outcome.err NodeNamespaceValidationError.EndsWithForwardSlash ∧
    validate_node_namespace "/just-a-namespace" =
      Outcome.err (NodeNamespaceValidationError.ContainsUnallowedCharacters 5) ∧
    validate_node_namespace "/just_a_namespace//second_level" =
      Outcome.err (NodeNamespaceValidationError.ContainsRepeatedForwardSlash 18) ∧
    validate_node_namespace "/21_namespace" =
      Outcome.err NodeNamespaceValidationError.StartsWithNumber := by decide

set_option maxRecDepth 100000 in
/-- C7: the name validator's outcomes on the reference inputs, including
the 1000-byte all-letter string and an input with an embedded zero byte. -/
theorem name_validator_reference_cases :
    validate_node_name "random_node_name" = Outcome.ok () ∧
    validate_node_name "" = Outcome.err NodeNameValidationError.EmptyString ∧
    validate_node_name "node_name+something" =
      Outcome.err (NodeNameValidationError.ContainsUnallowedCharacters 9) ∧
    validate_node_name "0_nodename" = Outcome.err NodeNameValidationError.StartsWithNumber ∧
    validate_node_name (String.mk (List.replicate 1000 'A')) =
      Outcome.err NodeNameValidationError.IsTooLong ∧
    validate_node_name "AB\x00AB" =
      Outcome.err (NodeNameValidationError.InvalidCString 2) := by decide

/-- C10: a defaulted `NodeBuilder` holds no name and the empty namespace,
and that namespace is one the namespace validator rejects with
`EmptyString`. -/
theorem default_builder_namespace_never_validated :
    NodeBuilder.default.name = none ∧
    NodeBuilder.default.namespace_ = "" ∧
    validate_node_namespace NodeBuilder.default.namespace_ =
      Outcome.err NodeNamespaceValidationError.EmptyString := by decide

/-! ## Claims about the result-code mappings -/

/-- C1: `Ros::init` maps the native return code exactly: success yields a
live handle, the invalid-ROS-arguments code yields
`Err(InvalidROSArguments)`, every other non-success code is a fatal panic,
and `InvalidROSArguments` is the only error init can return. -/
theorem init_result_code_mapping (args : List String)
    (rcl_init : List (List Char) → Nat) :
    (rcl_init (gatherArgs args) = RCL_RET_OK →
      Ros.init args rcl_init = Outcome.ok ⟨CtxPhase.live⟩) ∧
    (rcl_init (gatherArgs args) = RCL_RET_INVALID_ROS_ARGS →
      Ros.init args rcl_init = Outcome.err RosInitError.InvalidROSArguments) ∧
    (rcl_init (gatherArgs args) ≠ RCL_RET_OK →
      rcl_init (gatherArgs args) ≠ RCL_RET_INVALID_ROS_ARGS →
      ∃ msg, Ros.init args rcl_init = Outcome.fatal msg) ∧
    (∀ e, Ros.init args rcl_init = Outcome.err e → e = RosInitError.InvalidROSArguments) := by
  refine ⟨fun h => ?_, fun h => ?_, fun h1 h2 => ?_, fun e _ => ?_⟩
  · simp [Ros.init, h]
  · simp [Ros.init, h, RCL_RET_INVALID_ROS_ARGS, RCL_RET_OK]
  · exact ⟨"Unspecified error occurred while initialzing ROS",
      by simp [Ros.init, h1, h2]⟩
  · cases e; rfl

/-- C1 witness: the three mapping branches at concrete native behaviours. -/
theorem init_result_code_mapping_witness :
    Ros.init [] (fun _ => RCL_RET_OK) = Outcome.ok ⟨CtxPhase.live⟩ ∧
    Ros.init [] (fun _ => RCL_RET_INVALID_ROS_ARGS) =
      Outcome.err RosInitError.InvalidROSArguments ∧
    (∃ msg, Ros.init [] (fun _ => 1) = Outcome.fatal msg) :=
  ⟨(init_result_code_mapping [] (fun _ => RCL_RET_OK)).1 rfl,
   (init_result_code_mapping [] (fun _ => RCL_RET_INVALID_ROS_ARGS)).2.1 rfl,
   (init_result_code_mapping [] (fun _ => 1)).2.2.1 (by decide) (by decide)⟩

/-- C2: dropping a `Ros` value obtained from a successful init issues one
native shutdown whose result is `RCL_RET_OK` (so the assertion's failure
branch is unreachable) and leaves the context shut down. -/
theorem drop_asserts_shutdown_ok (args : List String)
    (rcl_init : List (List Char) → Nat) (r : Ros)
    (h : Ros.init args rcl_init = Outcome.ok r) :
    rcl_shutdown r.context = (RCL_RET_OK, CtxPhase.shutDown) ∧
    Ros.drop r = some CtxPhase.shutDown := by
  have hr : r.context = CtxPhase.live := by
    simp only [Ros.init] at h
    split_ifs at h
    exact congrArg Ros.context (Outcome.ok.inj h).symm
  rw [Ros.drop, hr]
  exact ⟨rfl, rfl⟩

/-- C2 witness: a handle produced by a successful init drops cleanly. -/
theorem drop_asserts_shutdown_ok_witness :
    rcl_shutdown (Ros.mk CtxPhase.live).context = (RCL_RET_OK, CtxPhase.shutDown) ∧
    Ros.drop ⟨CtxPhase.live⟩ = some CtxPhase.shutDown :=
  drop_asserts_shutdown_ok [] (fun _ => RCL_RET_OK) ⟨CtxPhase.live⟩ (by decide)

/-- C4: for every input without embedded zero bytes, `validate_node_name`
is the native result-code mapping, and that mapping sends the five
documented codes to the five documented outcomes and everything else to a
fatal panic. -/
theorem name_result_code_mapping (code idx : Nat) :
    (code = RMW_NODE_NAME_VALID → mapNodeNameResult code idx = Outcome.ok ()) ∧
    (code = RMW_NODE_NAME_INVALID_IS_EMPTY_STRING →
      mapNodeNameResult code idx = Outcome.err NodeNameValidationError.EmptyString) ∧
    (code = RMW_NODE_NAME_INVALID_CONTAINS_UNALLOWED_CHARACTERS →
      mapNodeNameResult code idx =
        Outcome.err (NodeNameValidationError.ContainsUnallowedCharacters idx)) ∧
    (code = RMW_NODE_NAME_INVALID_STARTS_WITH_NUMBER →
      mapNodeNameResult code idx = Outcome.err NodeNameValidationError.StartsWithNumber) ∧
    (code = RMW_NODE_NAME_INVALID_TOO_LONG →
      mapNodeNameResult code idx = Outcome.err NodeNameValidationError.IsTooLong) ∧
    (code ≠ RMW_NODE_NAME_VALID → code ≠ RMW_NODE_NAME_INVALID_IS_EMPTY_STRING →
      code ≠ RMW_NODE_NAME_INVALID_CONTAINS_UNALLOWED_CHARACTERS →
      code ≠ RMW_NODE_NAME_INVALID_STARTS_WITH_NUMBER →
      code ≠ RMW_NODE_NAME_INVALID_TOO_LONG →
      ∃ msg, mapNodeNameResult code idx = Outcome.fatal msg) ∧
    (∀ s : String, firstNulIdx 0 s.data = none →
      validate_node_name s =
        mapNodeNameResult (rmw_validate_node_name s.data).validation_result
          (rmw_validate_node_name s.data).invalid_index) := by
  refine ⟨fun h => ?_, fun h => ?_, fun h => ?_, fun h => ?_, fun h => ?_,
    fun h1 h2 h3 h4 h5 => ?_, fun s hs => ?_⟩
  · subst h; rfl
  · subst h; rfl
  · subst h; rfl
  · subst h; rfl
  · subst h; rfl
  · exact ⟨"Unknown error in validating node name",
      by simp [mapNodeNameResult, h1, h2, h3, h4, h5]⟩
  · rw [validate_node_name, cstring_new, hs]
    simp [rmw_validate_node_name_ret_ok]

/-- C4 witness: the mapping at representative codes and one string. -/
theorem name_result_code_mapping_witness :
    mapNodeNameResult 2 9 =
      Outcome.err (NodeNameValidationError.ContainsUnallowedCharacters 9) ∧
    (∃ msg, mapNodeNameResult 99 0 = Outcome.fatal msg) ∧
    validate_node_name "abc" =
      mapNodeNameResult (rmw_validate_node_name "abc".data).validation_result
        (rmw_validate_node_name "abc".data).invalid_index :=
  ⟨(name_result_code_mapping 2 9).2.2.1 rfl,
   (name_result_code_mapping 99 0).2.2.2.2.2.1
     (by decide) (by decide) (by decide) (by decide) (by decide),
   (name_result_code_mapping 0 0).2.2.2.2.2.2 "abc" (by decide)⟩

/-- C5: an input with an embedded zero byte is rejected by both validators
with the C-string representation error, before the native validator could
report anything else. -/
theorem nul_byte_rejected_first (s : String) (i : Nat)
    (h : firstNulIdx 0 s.data = some i) :
    validate_node_name s = Outcome.err (NodeNameValidationError.InvalidCString i) ∧
    validate_node_namespace s =
      Outcome.err (NodeNamespaceValidationError.InvalidCString i) := by
  constructor
  · rw [validate_node_name, cstring_new, h]
  · rw [validate_node_namespace, cstring_new, h]

/-- C5 witness: the test input with a zero byte at offset 2. -/
theorem nul_byte_rejected_first_witness :
    validate_node_name "AB\x00AB" =
      Outcome.err (NodeNameValidationError.InvalidCString 2) ∧
    validate_node_namespace "AB\x00AB" =
      Outcome.err (NodeNamespaceValidationError.InvalidCString 2) :=
  nul_byte_rejected_first "AB\x00AB" 2 (by decide)

/-! ## Claims about argument gathering and the builder -/

/-- Gathering process arguments keeps exactly the representable ones, in
their original order. -/
theorem gatherArgs_eq_filter (args : List String) :
    gatherArgs args =
      (args.filter (fun a => (firstNulIdx 0 a.data).isNone)).map String.data := by
  induction args with
  | nil => rfl
  | cons a rest ih =>
    rw [gatherArgs, List.filterMap_cons]
    rw [gatherArgs] at ih
    simp only [cstring_new, Except.toOption] at ih
    cases hn : firstNulIdx 0 a.data with
    | some i => simp [cstring_new, Except.toOption, hn, ih, List.filter_cons]
    | none => simp [cstring_new, Except.toOption, hn, ih, List.filter_cons]

/-- C8: `Ros::init` forwards exactly the arguments representable as C
strings, in their original order; the unrepresentable ones are silently
dropped and their presence never changes the outcome of init — for every
native behaviour, init on the full argument vector equals init on the
vector with the unrepresentable arguments removed. -/
theorem init_drops_unrepresentable_args (args : List String) :
    gatherArgs args =
      (args.filter (fun a => (firstNulIdx 0 a.data).isNone)).map String.data ∧
    ∀ rcl_init, Ros.init args rcl_init =
      Ros.init (args.filter (fun a => (firstNulIdx 0 a.data).isNone)) rcl_init := by
  have hsame : gatherArgs (args.filter (fun a => (firstNulIdx 0 a.data).isNone)) =
      (args.filter (fun a => (firstNulIdx 0 a.data).isNone)).map String.data := by
    rw [gatherArgs_eq_filter]
    congr 1
    exact List.filter_eq_self.mpr (fun a ha => (List.mem_filter.mp ha).2)
  refine ⟨gatherArgs_eq_filter args, fun rcl_init => ?_⟩
  have hg : gatherArgs args =
      gatherArgs (args.filter (fun a => (firstNulIdx 0 a.data).isNone)) := by
    rw [gatherArgs_eq_filter args, hsame]
  simp only [Ros.init, hg]

/-- C9: the builder's setters store an identifier only when its validator
accepts it: a stored name (namespace) has passed `validate_node_name`
(`validate_node_namespace`) and nothing else of the builder changes, and an
identifier the validator rejects is never stored — the setter panics. -/
theorem builder_stores_only_validated (b : NodeBuilder) (n ns : String) :
    (∀ b', NodeBuilder.with_name b n = some b' →
      validate_node_name n = Outcome.ok () ∧ b' = { b with name := some n }) ∧
    (validate_node_name n ≠ Outcome.ok () → NodeBuilder.with_name b n = none) ∧
    (∀ b', NodeBuilder.with_namespace b ns = some b' →
      validate_node_namespace ns = Outcome.ok () ∧ b' = { b with namespace_ := ns }) ∧
    (validate_node_namespace ns ≠ Outcome.ok () →
      NodeBuilder.with_namespace b ns = none) := by
  refine ⟨fun b' hb => ?_, fun h => ?_, fun b' hb => ?_, fun h => ?_⟩
  · unfold NodeBuilder.with_name at hb
    split at hb
    · rename_i a heq
      cases a
      exact ⟨heq, (Option.some.inj hb).symm⟩
    · exact Option.noConfusion hb
  · unfold NodeBuilder.with_name
    split
    · rename_i a heq
      cases a
      exact absurd heq h
    · rfl
  · unfold NodeBuilder.with_namespace at hb
    split at hb
    · rename_i a heq
      cases a
      exact ⟨heq, (Option.some.inj hb).symm⟩
    · exact Option.noConfusion hb
  · unfold NodeBuilder.with_namespace
    split
    · rename_i a heq
      cases a
      exact absurd heq h
    · rfl

/-- C9 witness: a valid name is stored as given; the invalid identifiers
from the repository's builder tests are refused (the setter panics). -/
theorem builder_stores_only_validated_witness :
    (validate_node_name "random_node_name" = Outcome.ok () ∧
      NodeBuilder.mk (some "random_node_name") "" (RclNodeOptions.mk true) =
        { NodeBuilder.default with name := some "random_node_name" }) ∧
    NodeBuilder.with_name NodeBuilder.default "Invalid+Name" = none ∧
    NodeBuilder.with_namespace NodeBuilder.default "invalid_namespace" = none :=
  ⟨(builder_stores_only_validated NodeBuilder.default "random_node_name" "x").1
      (NodeBuilder.mk (some "random_node_name") "" (RclNodeOptions.mk true)) (by decide),
   (builder_stores_only_validated NodeBuilder.default "Invalid+Name" "x").2.1 (by decide),
   (builder_stores_only_validated NodeBuilder.default "x" "invalid_namespace").2.2.2
     (by decide)⟩

end Ros2Rust
